import Mathlib

/-!
Verification of `compile_java_source`
(`src/python/pants/backend/java/compile/javac.py`).

The rule is an async pipeline over a memoized, content-addressed execution
engine.  We shallowly embed it as a pure function: every `Get`/`MultiGet`
against an external collaborator (the recursive compile requests, the source
provider, digest merging, lockfile filtering, classpath materialization,
process execution) is a field of an explicit `Env` record.  This encodes the
engine contract that identical requests are memoized and deterministic, so
the embedding is order-independent by construction.  The pipeline result is
a `CompileOutcome`: the returned `FallibleClasspathEntry` together with the
externally observable effects (which processes were launched and with which
arguments), which the properties below are about.
-/

namespace Javac

/-- A content-addressed filesystem image reference (`pants.engine.fs.Digest`),
identified by its fingerprint. -/
structure Digest where
  fingerprint : Nat
deriving DecidableEq, Repr

/-- `pants.engine.fs.EMPTY_DIGEST`: the canonical empty image. -/
def EMPTY_DIGEST : Digest := ⟨0⟩

/-- `pants.engine.fs.Snapshot`: a digest together with its file listing. -/
structure Snapshot where
  digest : Digest
  files : List String
deriving DecidableEq, Repr

/-- `pants.core.util_rules.source_files.SourceFiles` (the part this rule
reads: its snapshot). -/
structure SourceFiles where
  snapshot : Snapshot
deriving DecidableEq, Repr

/-- `pants.jvm.compile.ClasspathEntry`: an immutable reference to a compiled
output image. -/
structure ClasspathEntry where
  digest : Digest
deriving DecidableEq, Repr

/-- `pants.jvm.compile.CompileResult`. -/
inductive CompileResult where
  | SUCCEEDED
  | FAILED
  | DEPENDENCY_FAILED
deriving DecidableEq, Repr

/-- `pants.jvm.compile.FallibleClasspathEntry`. -/
structure FallibleClasspathEntry where
  description : String
  result : CompileResult
  output : Option ClasspathEntry
  exit_code : Int
deriving DecidableEq, Repr

/-- `pants.jvm.resolve.coursier_fetch.Coordinate`: third-party artifact
identity. -/
structure Coordinate where
  group : String
  artifact : String
  version : String
deriving DecidableEq, Repr

/-- `pants.jvm.resolve.coursier_fetch.CoursierResolveKey`: identifies the
resolution universe. -/
structure CoursierResolveKey where
  name : String
deriving DecidableEq, Repr

/-- `pants.jvm.resolve.coursier_fetch.CoursierResolvedLockfile`: the resolved
set of third-party artifacts (opaque to this rule beyond identity). -/
structure CoursierResolvedLockfile where
  entries : List Coordinate
deriving DecidableEq, Repr

/-- `pants.jvm.resolve.coursier_fetch.MaterializedClasspath`: an ordered list
of classpath path strings (`classpath_entries()`) plus a backing image. -/
structure MaterializedClasspath where
  classpath_entries : List String
  digest : Digest
deriving DecidableEq, Repr

/-- `pants.engine.process.FallibleProcessResult` (the fields this rule reads). -/
structure FallibleProcessResult where
  exit_code : Int
  output_digest : Digest
deriving DecidableEq, Repr

/-- `pants.engine.process.ProcessResult` (infallible; the engine raises on a
non-zero exit, so only the output image is observable here). -/
structure ProcessResult where
  output_digest : Digest
deriving DecidableEq, Repr

/-- `pants.engine.process.Process` (the fields this rule sets). -/
structure Process where
  argv : List String
  input_digest : Digest
  output_directories : List String
  output_files : List String
  description : String
deriving DecidableEq, Repr

/-- `pants.engine.process.BashBinary`. -/
structure BashBinary where
  path : String
deriving DecidableEq, Repr

/-- `pants.core.util_rules.archive.ZipBinary`. -/
structure ZipBinary where
  path : String
deriving DecidableEq, Repr

/-- `pants.jvm.jdk_rules.JdkSetup` (the fields this rule reads): the toolchain
image, the invocation-prefix builder `args`, and the JDK home path. -/
structure JdkSetup where
  digest : Digest
  args : BashBinary → List String → List String
  java_home : String

/-- A member build target (`pants.engine.target.Target`, the facets this rule
inspects): whether it has a `SourcesField`, whether `JvmArtifactFieldSet` is
applicable to it, its coordinate when it is an artifact target, and the
filesystem-safe encoding of its address. -/
structure Target where
  hasSourcesField : Bool
  isJvmArtifact : Bool
  coordinate : Coordinate
  pathSafeSpec : String
deriving DecidableEq, Repr

/-- `pants.engine.target.CoarsenedTarget`: a cycle-collapsed component with
member targets, direct dependency components, a representative member, and
its string form (`str(component)`). -/
inductive CoarsenedTarget : Type where
  | node (members : List Target) (dependencies : List CoarsenedTarget)
         (representative : Target) (strForm : String) : CoarsenedTarget

mutual

def CoarsenedTarget.decEq : (a b : CoarsenedTarget) → Decidable (a = b)
  | .node ms1 deps1 r1 s1, .node ms2 deps2 r2 s2 =>
    if h1 : ms1 = ms2 then
      if h3 : r1 = r2 then
        if h4 : s1 = s2 then
          match CoarsenedTarget.decEqList deps1 deps2 with
          | isTrue h2 => isTrue (by rw [h1, h2, h3, h4])
          | isFalse h2 => isFalse (fun h => by cases h; exact h2 rfl)
        else isFalse (fun h => by cases h; exact h4 rfl)
      else isFalse (fun h => by cases h; exact h3 rfl)
    else isFalse (fun h => by cases h; exact h1 rfl)

def CoarsenedTarget.decEqList : (as bs : List CoarsenedTarget) → Decidable (as = bs)
  | [], [] => isTrue rfl
  | [], _ :: _ => isFalse (fun h => by cases h)
  | _ :: _, [] => isFalse (fun h => by cases h)
  | a :: as, b :: bs =>
    match CoarsenedTarget.decEq a b, CoarsenedTarget.decEqList as bs with
    | isTrue h1, isTrue h2 => isTrue (by rw [h1, h2])
    | isFalse h1, _ => isFalse (fun h => by cases h; exact h1 rfl)
    | _, isFalse h2 => isFalse (fun h => by cases h; exact h2 rfl)

end

instance : DecidableEq CoarsenedTarget := CoarsenedTarget.decEq

def CoarsenedTarget.members : CoarsenedTarget → List Target
  | .node ms _ _ _ => ms

def CoarsenedTarget.dependencies : CoarsenedTarget → List CoarsenedTarget
  | .node _ deps _ _ => deps

def CoarsenedTarget.representative : CoarsenedTarget → Target
  | .node _ _ r _ => r

def CoarsenedTarget.strForm : CoarsenedTarget → String
  | .node _ _ _ s => s

/-- Modelled from the spec: `CoarsenedTargets.closure`
(`pants.engine.target`, not under `src/`).  Per §4.3/§9 the closure of a set
of coarsened components is every component of the set together with every
component reachable from it through dependencies (the coarsened graph is a
DAG, computed by an external SCC step). -/
def closureList : List CoarsenedTarget → List CoarsenedTarget
  | [] => []
  | .node ms deps r s :: ts =>
      (CoarsenedTarget.node ms deps r s :: closureList deps) ++ closureList ts

/-- `CompileJavaSourceRequest` (`javac.py`): a component paired with a resolve
key. -/
structure CompileJavaSourceRequest where
  component : CoarsenedTarget
  resolve : CoursierResolveKey
deriving DecidableEq

/-- Modelled from the spec: `FallibleClasspathEntry.from_fallible_process_result`
(`pants.jvm.compile`, not under `src/`).  Per §4.6/§7 the status and exit code
mirror the process result (zero exit yields `Succeeded`, non-zero yields
`Failed`), the description is the given description, and the Classpath Entry
is the given optional output. -/
def FallibleClasspathEntry.from_fallible_process_result
    (description : String) (process_result : FallibleProcessResult)
    (output : Option ClasspathEntry) : FallibleClasspathEntry :=
  { description := description
    result := if process_result.exit_code = 0 then .SUCCEEDED else .FAILED
    output := output
    exit_code := process_result.exit_code }

/-- The external collaborators this rule issues `Get` requests to
(spec §6).  Each is a function of the request because the engine memoizes and
deduplicates identical requests: a given request has one result, regardless
of the order in which concurrently issued requests complete. -/
structure Env where
  /-- Recursive compile requests, answered by the graph/cache engine. -/
  compileDep : CompileJavaSourceRequest → FallibleClasspathEntry
  /-- Source provider: realized `SourceFiles` for a member target
  (`SourceFilesRequest` with `JavaSourceField` filter and codegen enabled). -/
  sourceFiles : Target → SourceFiles
  /-- `MergeDigests`. -/
  mergeDigests : List Digest → Digest
  /-- The resolve key's unfiltered `CoursierResolvedLockfile`. -/
  unfilteredLockfile : CoursierResolveKey → CoursierResolvedLockfile
  /-- `FilterDependenciesRequest`: filter a lockfile to a coordinate set. -/
  filterDependencies : List Coordinate → CoursierResolvedLockfile → CoursierResolvedLockfile
  /-- `MaterializedClasspathRequest` with a destination prefix. -/
  materialize : String → CoursierResolvedLockfile → MaterializedClasspath
  /-- `CreateDigest` of a list of empty directories. -/
  createDigest : List String → Digest
  /-- `AddPrefix`, observed as a `Snapshot`. -/
  addPrefix : Digest → String → Snapshot
  /-- Process executor for the fallible compile process. -/
  runProcess : Process → FallibleProcessResult
  /-- Process executor for the infallible jar process. -/
  runProcessChecked : Process → ProcessResult
  /-- `Get(Snapshot, Digest, d)`. -/
  snapshotOf : Digest → Snapshot

/-- The result of running the pipeline once: the returned
`FallibleClasspathEntry` plus the externally observable effects (whether the
compiler and the archiver were launched, and the exact requests built for
them). -/
structure CompileOutcome where
  entry : FallibleClasspathEntry
  compilerInvoked : Bool
  compileProcess : Option Process
  jarInvoked : Bool
  jarProcess : Option Process
  filterCoords : Option (List Coordinate)
  materializedLockfile : Option CoursierResolvedLockfile
  classpathArg : Option String
deriving Repr

/-!
The `compile_java_source` rule (`javac.py`, lines 56-242), translated
statement by statement.  Each local binding of the rule becomes a named
definition below (same name as the Python local), and `compile_java_source`
composes them along the rule's control flow.  `Get`/`MultiGet` calls become
applications of the corresponding `Env` field; Python truthiness of
`fcc.output`, of a list and of a string become `Option.isSome` (via
`filterMap`), `≠ []` and `≠ ""`.
-/

/-- `javac.py` lines 64-70: the `MultiGet` of direct dependency compiles. -/
def direct_dependency_classfiles_fallible (env : Env)
    (request : CompileJavaSourceRequest) : List FallibleClasspathEntry :=
  request.component.dependencies.map
    (fun coarsened_dep => env.compileDep ⟨coarsened_dep, request.resolve⟩)

/-- `javac.py` lines 71-73: the outputs of the dependency entries that have
one (`if fcc.output`). -/
def direct_dependency_classfiles (env : Env)
    (request : CompileJavaSourceRequest) : List ClasspathEntry :=
  (direct_dependency_classfiles_fallible env request).filterMap (fun fcc => fcc.output)

/-- `javac.py` lines 83-85: members that declare a `SourcesField`. -/
def component_members_with_sources (request : CompileJavaSourceRequest) : List Target :=
  request.component.members.filter (fun t => t.hasSourcesField)

/-- `javac.py` lines 86-99: each sources-bearing member zipped with its
realized `SourceFiles`. -/
def component_members_and_source_files (env : Env)
    (request : CompileJavaSourceRequest) : List (Target × SourceFiles) :=
  (component_members_with_sources request).map (fun t => (t, env.sourceFiles t))

/-- `javac.py` lines 100-104: drop members whose sources snapshot is empty. -/
def component_members_and_java_source_files (env : Env)
    (request : CompileJavaSourceRequest) : List (Target × SourceFiles) :=
  (component_members_and_source_files env request).filter
    (fun ts => ts.2.snapshot.digest ≠ EMPTY_DIGEST)

/-- `javac.py` lines 108-110: the alias result image, the merge of the
dependencies' output images. -/
def dependencies_digest (env : Env) (request : CompileJavaSourceRequest) : Digest :=
  env.mergeDigests
    ((direct_dependency_classfiles env request).map (fun classfiles => classfiles.digest))

/-- `javac.py` lines 118-125: coordinates of every artifact member in the
closure of the component's dependencies. -/
def filter_coords (request : CompileJavaSourceRequest) : List Coordinate :=
  ((closureList request.component.dependencies).flatMap
    (fun item => item.members.filter (fun dep => dep.isJvmArtifact))).map
    (fun dep => dep.coordinate)

/-- `javac.py` lines 127-130: the resolve key's lockfile filtered to
`filter_coords`. -/
def lockfile (env : Env) (request : CompileJavaSourceRequest) : CoursierResolvedLockfile :=
  env.filterDependencies (filter_coords request) (env.unfilteredLockfile request.resolve)

/-- `javac.py` line 132. -/
def dest_dir : String := "classfiles"

/-- `javac.py` lines 138-144: the third-party classpath, materialized under
the `__thirdpartycp` prefix. -/
def materialized_classpath (env : Env)
    (request : CompileJavaSourceRequest) : MaterializedClasspath :=
  env.materialize "__thirdpartycp" (lockfile env request)

/-- `javac.py` line 145: merged direct dependency output images. -/
def merged_direct_dependency_classpath_digest (env : Env)
    (request : CompileJavaSourceRequest) : Digest :=
  env.mergeDigests
    ((direct_dependency_classfiles env request).map (fun classfiles => classfiles.digest))

/-- `javac.py` lines 146-149: the pre-created empty output directory. -/
def dest_dir_digest (env : Env) : Digest :=
  env.createDigest [dest_dir]

/-- `javac.py` lines 152-154: the merged dependency classpath placed under
the `__usercp` prefix. -/
def prefixed_direct_dependency_classpath (env : Env)
    (request : CompileJavaSourceRequest) : Snapshot :=
  env.addPrefix (merged_direct_dependency_classpath_digest env request) "__usercp"

/-- `javac.py` lines 156-158: first-party prefixed paths, then third-party
paths, `:`-joined. -/
def classpath_arg (env : Env) (request : CompileJavaSourceRequest) : String :=
  String.intercalate ":"
    ((prefixed_direct_dependency_classpath env request).files ++
      (materialized_classpath env request).classpath_entries)

/-- `javac.py` lines 160-174: the compile process input image. -/
def merged_digest (env : Env) (jdk_setup : JdkSetup)
    (request : CompileJavaSourceRequest) : Digest :=
  env.mergeDigests
    ([(prefixed_direct_dependency_classpath env request).digest,
      (materialized_classpath env request).digest,
      dest_dir_digest env, jdk_setup.digest] ++
      (component_members_and_java_source_files env request).map
        (fun ts => ts.2.snapshot.digest))

/-- `javac.py` lines 179-200: the javac process. -/
def compile_process (env : Env) (bash : BashBinary) (jdk_setup : JdkSetup)
    (request : CompileJavaSourceRequest) : Process :=
  { argv := jdk_setup.args bash [jdk_setup.java_home ++ "/lib/tools.jar"] ++
      ["com.sun.tools.javac.Main"] ++
      (if classpath_arg env request ≠ "" then ["-cp", classpath_arg env request] else []) ++
      ["-d", dest_dir] ++
      (((component_members_and_java_source_files env request).flatMap
          (fun ts => ts.2.snapshot.files)).mergeSort (fun a b => a ≤ b))
    input_digest := merged_digest env jdk_setup request
    output_directories := [dest_dir]
    output_files := []
    description := "Compile " ++ request.component.strForm ++ " with javac" }

/-- `javac.py` lines 177-201: the fallible result of running javac. -/
def compile_result (env : Env) (bash : BashBinary) (jdk_setup : JdkSetup)
    (request : CompileJavaSourceRequest) : FallibleProcessResult :=
  env.runProcess (compile_process env bash jdk_setup request)

/-- `javac.py` line 213: the compiler's output image, as a snapshot. -/
def output_snapshot (env : Env) (bash : BashBinary) (jdk_setup : JdkSetup)
    (request : CompileJavaSourceRequest) : Snapshot :=
  env.snapshotOf (compile_result env bash jdk_setup request).output_digest

/-- `javac.py` line 214: the jar name, derived from the representative
member's address. -/
def output_file (request : CompileJavaSourceRequest) : String :=
  request.component.representative.pathSafeSpec ++ ".jar"

/-- `javac.py` lines 216-231: the jar process. -/
def jar_process (env : Env) (bash : BashBinary) (jdk_setup : JdkSetup)
    (zip_binary : ZipBinary) (request : CompileJavaSourceRequest) : Process :=
  { argv := [bash.path, "-c",
      String.intercalate " "
        ["cd", dest_dir, ";", zip_binary.path, "-r", "../" ++ output_file request, "."]]
    input_digest := (compile_result env bash jdk_setup request).output_digest
    output_directories := []
    output_files := [output_file request]
    description := "Capture outputs of " ++ request.component.strForm ++ " for javac" }

/-- The `compile_java_source` rule: composition of the stages above along the
rule's control flow (`javac.py` lines 56-242). -/
def compile_java_source (env : Env) (bash : BashBinary) (jdk_setup : JdkSetup)
    (zip_binary : ZipBinary) (request : CompileJavaSourceRequest) : CompileOutcome :=
  if (direct_dependency_classfiles env request).length ≠
      (direct_dependency_classfiles_fallible env request).length then
    -- Lines 74-80: a dependency did not produce an output.
    { entry := { description := request.component.strForm
                 result := .DEPENDENCY_FAILED
                 output := none
                 exit_code := 1 }
      compilerInvoked := false, compileProcess := none
      jarInvoked := false, jarProcess := none
      filterCoords := none, materializedLockfile := none, classpathArg := none }
  else if component_members_and_java_source_files env request = [] then
    -- Lines 105-116: the component is acting as an alias for its
    -- dependencies: return their merged classpaths.
    { entry := { description := request.component.strForm
                 result := .SUCCEEDED
                 output := some ⟨dependencies_digest env request⟩
                 exit_code := 0 }
      compilerInvoked := false, compileProcess := none
      jarInvoked := false, jarProcess := none
      filterCoords := none, materializedLockfile := none, classpathArg := none }
  else if (compile_result env bash jdk_setup request).exit_code ≠ 0 then
    -- Lines 202-207: compile failure.
    { entry := FallibleClasspathEntry.from_fallible_process_result
        request.component.strForm (compile_result env bash jdk_setup request) none
      compilerInvoked := true
      compileProcess := some (compile_process env bash jdk_setup request)
      jarInvoked := false, jarProcess := none
      filterCoords := some (filter_coords request)
      materializedLockfile := some (lockfile env request)
      classpathArg := some (classpath_arg env request) }
  else if (output_snapshot env bash jdk_setup request).files ≠ [] then
    -- Lines 215-232, 238-242: jar the outputs.
    { entry := FallibleClasspathEntry.from_fallible_process_result
        request.component.strForm (compile_result env bash jdk_setup request)
        (some ⟨(env.runProcessChecked
          (jar_process env bash jdk_setup zip_binary request)).output_digest⟩)
      compilerInvoked := true
      compileProcess := some (compile_process env bash jdk_setup request)
      jarInvoked := true
      jarProcess := some (jar_process env bash jdk_setup zip_binary request)
      filterCoords := some (filter_coords request)
      materializedLockfile := some (lockfile env request)
      classpathArg := some (classpath_arg env request) }
  else
    -- Lines 233-242: no output, do not create a jar file.
    { entry := FallibleClasspathEntry.from_fallible_process_result
        request.component.strForm (compile_result env bash jdk_setup request)
        (some ⟨EMPTY_DIGEST⟩)
      compilerInvoked := true
      compileProcess := some (compile_process env bash jdk_setup request)
      jarInvoked := false, jarProcess := none
      filterCoords := some (filter_coords request)
      materializedLockfile := some (lockfile env request)
      classpathArg := some (classpath_arg env request) }

/-!
The graph/cache engine.  The engine itself is not under `src/`; per spec §5/§6
it is a key-addressed completion cache: the first request for a key runs the
rule body, later identical requests receive the memoized result.
-/

/-- Modelled from the spec: the graph/cache engine's memoization state
(spec §5, §6; the engine is not under `src/`): a key-addressed completion
cache over (component, resolve key) compile requests, plus a count of
compiler invocations performed so far. -/
structure EngineState where
  cache : List (CompileJavaSourceRequest × FallibleClasspathEntry)
  compilerInvocations : Nat

/-- Modelled from the spec: one compile request against the engine.  On a
cache hit the memoized entry is returned unchanged; on a miss the rule body
`compute` runs (returning its entry and whether it invoked the compiler) and
the result is cached. -/
def engineStep (compute : CompileJavaSourceRequest → FallibleClasspathEntry × Bool)
    (s : EngineState) (r : CompileJavaSourceRequest) :
    FallibleClasspathEntry × EngineState :=
  match s.cache.lookup r with
  | some e => (e, s)
  | none =>
    ((compute r).1,
      { cache := (r, (compute r).1) :: s.cache
        compilerInvocations :=
          s.compilerInvocations + (if (compute r).2 then 1 else 0) })

/-- Modelled from the spec: a sequence of compile requests resolved against
the shared completion cache (the serialization of N concurrent identical
requests: each either computes first or observes the memoized result). -/
def engineRun (compute : CompileJavaSourceRequest → FallibleClasspathEntry × Bool)
    (s : EngineState) :
    List CompileJavaSourceRequest → List FallibleClasspathEntry × EngineState
  | [] => ([], s)
  | r :: rs =>
    let es := engineStep compute s r
    let rest := engineRun compute es.2 rs
    (es.1 :: rest.1, rest.2)

/-! Helper lemmas. -/

/-- The dependency gate (`javac.py` line 74) fires exactly when some direct
dependency entry carries no output: the filtered list is shorter than the
full list iff some entry's `output` is `none`. -/
theorem length_filterMap_output_ne_iff (l : List FallibleClasspathEntry) :
    ((l.filterMap (fun fcc => fcc.output)).length ≠ l.length) ↔
      ∃ fcc ∈ l, fcc.output = none := by
  induction l with
  | nil => simp
  | cons a l ih =>
    cases h : a.output with
    | none =>
      simp only [List.filterMap_cons, h, List.length_cons]
      constructor
      · intro _
        exact ⟨a, List.mem_cons_self a l, h⟩
      · intro _
        have hle := List.length_filterMap_le (fun fcc => fcc.output) l
        omega
    | some b =>
      simp only [List.filterMap_cons, h, List.length_cons]
      constructor
      · intro hne
        rcases ih.mp (fun he => hne (by omega)) with ⟨f, hf, ho⟩
        exact ⟨f, List.mem_cons_of_mem _ hf, ho⟩
      · rintro ⟨f, hf, ho⟩
        rcases List.mem_cons.mp hf with rfl | hf
        · rw [h] at ho
          cases ho
        · have := ih.mpr ⟨f, hf, ho⟩
          omega

/-- `from_fallible_process_result` only produces `SUCCEEDED` or `FAILED`. -/
theorem from_fallible_result_ne_dependency_failed (d : String)
    (pr : FallibleProcessResult) (o : Option ClasspathEntry) :
    (FallibleClasspathEntry.from_fallible_process_result d pr o).result ≠
      CompileResult.DEPENDENCY_FAILED := by
  simp only [FallibleClasspathEntry.from_fallible_process_result]
  split <;> simp

/-- Pipeline invariant: the returned entry carries an output exactly when its
result is `SUCCEEDED` (so dependency entries produced by this same rule
satisfy the hypothesis of `dependency_failure_short_circuits`). -/
theorem compile_entry_output_isSome_iff (env : Env) (bash : BashBinary)
    (jdk_setup : JdkSetup) (zip_binary : ZipBinary) (request : CompileJavaSourceRequest) :
    ((compile_java_source env bash jdk_setup zip_binary request).entry.output.isSome = true ↔
      (compile_java_source env bash jdk_setup zip_binary request).entry.result =
        CompileResult.SUCCEEDED) := by
  unfold compile_java_source
  split
  · simp
  split
  · simp
  split
  case isTrue h3 =>
    simp [FallibleClasspathEntry.from_fallible_process_result, h3]
  case isFalse h3 =>
    split <;>
      simp [FallibleClasspathEntry.from_fallible_process_result, not_not.mp h3]

/-! Claim theorems. -/

/-- C1: if any direct dependency's entry is `Failed` or `DependencyFailed`
(dependency entries, being produced by this same pipeline, carry an output
only on success), `compile_java_source` returns `DependencyFailed` with exit
code 1 and no Classpath Entry, and neither the compiler nor the archiver is
invoked. -/
theorem dependency_failure_short_circuits (env : Env) (bash : BashBinary)
    (jdk_setup : JdkSetup) (zip_binary : ZipBinary) (request : CompileJavaSourceRequest)
    (hinv : ∀ fcc ∈ direct_dependency_classfiles_fallible env request,
      fcc.result ≠ CompileResult.SUCCEEDED → fcc.output = none)
    (fcc : FallibleClasspathEntry)
    (hmem : fcc ∈ direct_dependency_classfiles_fallible env request)
    (hbad : fcc.result = CompileResult.FAILED ∨
      fcc.result = CompileResult.DEPENDENCY_FAILED) :
    compile_java_source env bash jdk_setup zip_binary request =
      { entry := { description := request.component.strForm
                   result := .DEPENDENCY_FAILED
                   output := none
                   exit_code := 1 }
        compilerInvoked := false, compileProcess := none
        jarInvoked := false, jarProcess := none
        filterCoords := none, materializedLockfile := none, classpathArg := none } := by
  have hnone : fcc.output = none := by
    refine hinv fcc hmem ?_
    rcases hbad with h | h <;> simp [h]
  have hc : (direct_dependency_classfiles env request).length ≠
      (direct_dependency_classfiles_fallible env request).length := by
    simp only [direct_dependency_classfiles]
    exact (length_filterMap_output_ne_iff _).mpr ⟨fcc, hmem, hnone⟩
  unfold compile_java_source
  rw [if_pos hc]

/-- C9: on every return path (dependency failure, alias pass-through,
compiler failure, jar and no-jar success), the returned entry's description
is the string form of the requested component. -/
theorem compile_entry_description_eq_strForm (env : Env) (bash : BashBinary)
    (jdk_setup : JdkSetup) (zip_binary : ZipBinary) (request : CompileJavaSourceRequest) :
    (compile_java_source env bash jdk_setup zip_binary request).entry.description =
      request.component.strForm := by
  unfold compile_java_source
  split
  · rfl
  split
  · rfl
  split
  · rfl
  split <;> rfl

/-- C10: the rule proceeds past dependency resolution iff every direct
dependency entry carries an output; equivalently, it returns
`DependencyFailed` iff some dependency entry's output is `none` — the
dependency's `result` variant is never inspected, so an entry marked
`SUCCEEDED` with no output also counts as a dependency failure. -/
theorem dependency_gate_iff_missing_output (env : Env) (bash : BashBinary)
    (jdk_setup : JdkSetup) (zip_binary : ZipBinary) (request : CompileJavaSourceRequest) :
    ((compile_java_source env bash jdk_setup zip_binary request).entry.result =
        CompileResult.DEPENDENCY_FAILED ↔
      ∃ fcc ∈ direct_dependency_classfiles_fallible env request, fcc.output = none) := by
  unfold compile_java_source
  split
  case isTrue h =>
    simp only [direct_dependency_classfiles] at h
    exact iff_of_true rfl ((length_filterMap_output_ne_iff _).mp h)
  case isFalse h =>
    simp only [direct_dependency_classfiles] at h
    refine iff_of_false ?_ (fun hex => h ((length_filterMap_output_ne_iff _).mpr hex))
    split
    · simp
    split
    · exact from_fallible_result_ne_dependency_failed _ _ _
    split <;> exact from_fallible_result_ne_dependency_failed _ _ _

/-! Concrete fixtures used to instantiate the theorems. -/

def sampleCoordinate : Coordinate := ⟨"org", "lib", "1.0"⟩

def srcTarget : Target :=
  { hasSourcesField := true, isJvmArtifact := false
    coordinate := sampleCoordinate, pathSafeSpec := "src.lib" }

def artifactTarget : Target :=
  { hasSourcesField := false, isJvmArtifact := true
    coordinate := sampleCoordinate, pathSafeSpec := "3rdparty.lib" }

def depComponent : CoarsenedTarget :=
  .node [artifactTarget] [] artifactTarget "dep-component"

def rootComponent : CoarsenedTarget :=
  .node [srcTarget] [depComponent] srcTarget "root-component"

def sampleResolve : CoursierResolveKey := ⟨"jvm-default"⟩

def sampleRequest : CompileJavaSourceRequest := ⟨rootComponent, sampleResolve⟩

def sampleBash : BashBinary := ⟨"/bin/bash"⟩

def sampleZip : ZipBinary := ⟨"/usr/bin/zip"⟩

def sampleJdk : JdkSetup :=
  { digest := ⟨7⟩
    args := fun b tools => [b.path, "run_javac.sh"] ++ tools
    java_home := "/jdk" }

def okDepEntry : FallibleClasspathEntry :=
  { description := "dep-component", result := .SUCCEEDED
    output := some ⟨⟨11⟩⟩, exit_code := 0 }

def failedDepEntry : FallibleClasspathEntry :=
  { description := "dep-component", result := .FAILED
    output := none, exit_code := 1 }

/-- An environment in which every collaborator answers deterministically and
the pipeline runs to a successful compile. -/
def baseEnv : Env :=
  { compileDep := fun _ => okDepEntry
    sourceFiles := fun _ => ⟨⟨⟨21⟩, ["org/Lib.java"]⟩⟩
    mergeDigests := fun ds => ⟨100 + ds.length⟩
    unfilteredLockfile := fun _ => ⟨[sampleCoordinate]⟩
    filterDependencies := fun cs lf => ⟨lf.entries.filter (fun c => cs.contains c)⟩
    materialize := fun _ lf =>
      ⟨lf.entries.map (fun c => "__thirdpartycp/" ++ c.artifact ++ ".jar"), ⟨31⟩⟩
    createDigest := fun _ => ⟨41⟩
    addPrefix := fun d p => ⟨⟨d.fingerprint + 1⟩, [p ++ "/dep.jar"]⟩
    runProcess := fun _ => ⟨0, ⟨51⟩⟩
    runProcessChecked := fun _ => ⟨⟨61⟩⟩
    snapshotOf := fun d => ⟨d, ["org/Lib.class"]⟩ }

/-- A dependency of the sample request compiles to `failedDepEntry`. -/
def envDepFailed : Env := { baseEnv with compileDep := fun _ => failedDepEntry }

/-- Every member's sources snapshot is empty: the component is an alias. -/
def envAlias : Env := { baseEnv with sourceFiles := fun _ => ⟨⟨EMPTY_DIGEST, []⟩⟩ }

/-- Witness for C1 at a concrete input: a single failed dependency makes the
sample request short-circuit to `DependencyFailed`. -/
theorem dependency_failure_short_circuits_witness :
    compile_java_source envDepFailed sampleBash sampleJdk sampleZip sampleRequest =
      { entry := { description := sampleRequest.component.strForm
                   result := .DEPENDENCY_FAILED
                   output := none
                   exit_code := 1 }
        compilerInvoked := false, compileProcess := none
        jarInvoked := false, jarProcess := none
        filterCoords := none, materializedLockfile := none, classpathArg := none } :=
  dependency_failure_short_circuits envDepFailed sampleBash sampleJdk sampleZip
    sampleRequest (by decide) failedDepEntry (by decide) (Or.inl (by decide))

/-- C2: a component whose members contribute no source files after filtering
is an alias: `Succeeded`, exit code 0, output image the merge of the direct
dependencies' output images, and neither the compiler nor the packager is
invoked. -/
theorem alias_component_merges_dependency_images (env : Env) (bash : BashBinary)
    (jdk_setup : JdkSetup) (zip_binary : ZipBinary) (request : CompileJavaSourceRequest)
    (hdeps : (direct_dependency_classfiles env request).length =
      (direct_dependency_classfiles_fallible env request).length)
    (hsrc : component_members_and_java_source_files env request = []) :
    compile_java_source env bash jdk_setup zip_binary request =
      { entry := { description := request.component.strForm
                   result := .SUCCEEDED
                   output := some ⟨env.mergeDigests
                     ((direct_dependency_classfiles env request).map
                       (fun classfiles => classfiles.digest))⟩
                   exit_code := 0 }
        compilerInvoked := false, compileProcess := none
        jarInvoked := false, jarProcess := none
        filterCoords := none, materializedLockfile := none, classpathArg := none } := by
  unfold compile_java_source
  rw [if_neg (fun h => h hdeps), if_pos hsrc]
  rfl

/-- Witness for C2 at a concrete input. -/
theorem alias_component_merges_dependency_images_witness :
    compile_java_source envAlias sampleBash sampleJdk sampleZip sampleRequest =
      { entry := { description := sampleRequest.component.strForm
                   result := .SUCCEEDED
                   output := some ⟨envAlias.mergeDigests
                     ((direct_dependency_classfiles envAlias sampleRequest).map
                       (fun classfiles => classfiles.digest))⟩
                   exit_code := 0 }
        compilerInvoked := false, compileProcess := none
        jarInvoked := false, jarProcess := none
        filterCoords := none, materializedLockfile := none, classpathArg := none } :=
  alias_component_merges_dependency_images envAlias sampleBash sampleJdk sampleZip
    sampleRequest (by decide) (by decide)

/-- C3: every compilation that reaches classpath assembly passes the compiler
a classpath string that is the `:`-joined concatenation of the prefixed
first-party classpath files followed by the third-party classpath entries, in
that order.  (Order independence of concurrent sub-request completion is
built into the embedding: every collaborator result is a function of its
request, as the memoizing engine guarantees.) -/
theorem classpath_user_entries_before_thirdparty (env : Env) (bash : BashBinary)
    (jdk_setup : JdkSetup) (zip_binary : ZipBinary) (request : CompileJavaSourceRequest)
    (hdeps : (direct_dependency_classfiles env request).length =
      (direct_dependency_classfiles_fallible env request).length)
    (hsrc : component_members_and_java_source_files env request ≠ []) :
    (compile_java_source env bash jdk_setup zip_binary request).classpathArg =
      some (String.intercalate ":"
        ((prefixed_direct_dependency_classpath env request).files ++
          (materialized_classpath env request).classpath_entries)) := by
  unfold compile_java_source
  rw [if_neg (fun h => h hdeps), if_neg hsrc]
  split
  · rfl
  split <;> rfl

/-- Witness for C3 at a concrete input. -/
theorem classpath_user_entries_before_thirdparty_witness :
    (compile_java_source baseEnv sampleBash sampleJdk sampleZip sampleRequest).classpathArg =
      some (String.intercalate ":"
        ((prefixed_direct_dependency_classpath baseEnv sampleRequest).files ++
          (materialized_classpath baseEnv sampleRequest).classpath_entries)) :=
  classpath_user_entries_before_thirdparty baseEnv sampleBash sampleJdk sampleZip
    sampleRequest (by decide) (by decide)

/-- C4: after a zero-exit compile, if the output image holds no files, the
archiver is not invoked and the result is `Succeeded` with the canonical
empty image as artifact; if it holds at least one file, the archiver is
invoked as a distinct process declaring exactly one named artifact. -/
theorem empty_output_skips_packaging (env : Env) (bash : BashBinary)
    (jdk_setup : JdkSetup) (zip_binary : ZipBinary) (request : CompileJavaSourceRequest)
    (hdeps : (direct_dependency_classfiles env request).length =
      (direct_dependency_classfiles_fallible env request).length)
    (hsrc : component_members_and_java_source_files env request ≠ [])
    (hexit : (compile_result env bash jdk_setup request).exit_code = 0) :
    ((output_snapshot env bash jdk_setup request).files = [] →
      (compile_java_source env bash jdk_setup zip_binary request).jarInvoked = false ∧
      (compile_java_source env bash jdk_setup zip_binary request).entry =
        { description := request.component.strForm
          result := .SUCCEEDED
          output := some ⟨EMPTY_DIGEST⟩
          exit_code := 0 }) ∧
    ((output_snapshot env bash jdk_setup request).files ≠ [] →
      (compile_java_source env bash jdk_setup zip_binary request).jarInvoked = true ∧
      (compile_java_source env bash jdk_setup zip_binary request).jarProcess =
        some (jar_process env bash jdk_setup zip_binary request) ∧
      (jar_process env bash jdk_setup zip_binary request).output_files =
        [output_file request]) := by
  unfold compile_java_source
  rw [if_neg (fun h => h hdeps), if_neg hsrc, if_neg (fun h => h hexit)]
  by_cases hf : (output_snapshot env bash jdk_setup request).files = []
  · rw [if_neg (fun h => h hf)]
    refine ⟨fun _ => ⟨rfl, ?_⟩, fun hne => absurd hf hne⟩
    simp [FallibleClasspathEntry.from_fallible_process_result, hexit]
  · rw [if_pos hf]
    exact ⟨fun he => absurd he hf, fun _ => ⟨rfl, rfl, rfl⟩⟩

/-- The compiler emits no class files in this environment. -/
def envNoClassfiles : Env := { baseEnv with snapshotOf := fun d => ⟨d, []⟩ }

/-- Witness for C4 at a concrete input (the empty-output side fires). -/
theorem empty_output_skips_packaging_witness :
    ((output_snapshot envNoClassfiles sampleBash sampleJdk sampleRequest).files = [] →
      (compile_java_source envNoClassfiles sampleBash sampleJdk sampleZip
        sampleRequest).jarInvoked = false ∧
      (compile_java_source envNoClassfiles sampleBash sampleJdk sampleZip
        sampleRequest).entry =
        { description := sampleRequest.component.strForm
          result := .SUCCEEDED
          output := some ⟨EMPTY_DIGEST⟩
          exit_code := 0 }) ∧
    ((output_snapshot envNoClassfiles sampleBash sampleJdk sampleRequest).files ≠ [] →
      (compile_java_source envNoClassfiles sampleBash sampleJdk sampleZip
        sampleRequest).jarInvoked = true ∧
      (compile_java_source envNoClassfiles sampleBash sampleJdk sampleZip
        sampleRequest).jarProcess =
        some (jar_process envNoClassfiles sampleBash sampleJdk sampleZip sampleRequest) ∧
      (jar_process envNoClassfiles sampleBash sampleJdk sampleZip
        sampleRequest).output_files = [output_file sampleRequest]) :=
  empty_output_skips_packaging envNoClassfiles sampleBash sampleJdk sampleZip
    sampleRequest (by decide) (by decide) (by decide)

/-- C5: a non-zero compiler exit yields `Failed` carrying the component's
description and the process's exit code, with no Classpath Entry, and the
packaging stage is never invoked. -/
theorem compiler_failure_yields_failed (env : Env) (bash : BashBinary)
    (jdk_setup : JdkSetup) (zip_binary : ZipBinary) (request : CompileJavaSourceRequest)
    (hdeps : (direct_dependency_classfiles env request).length =
      (direct_dependency_classfiles_fallible env request).length)
    (hsrc : component_members_and_java_source_files env request ≠ [])
    (hexit : (compile_result env bash jdk_setup request).exit_code ≠ 0) :
    (compile_java_source env bash jdk_setup zip_binary request).entry =
      { description := request.component.strForm
        result := .FAILED
        output := none
        exit_code := (compile_result env bash jdk_setup request).exit_code } ∧
    (compile_java_source env bash jdk_setup zip_binary request).jarInvoked = false ∧
    (compile_java_source env bash jdk_setup zip_binary request).jarProcess = none := by
  unfold compile_java_source
  rw [if_neg (fun h => h hdeps), if_neg hsrc, if_pos hexit]
  refine ⟨?_, rfl, rfl⟩
  simp [FallibleClasspathEntry.from_fallible_process_result, hexit]

/-- The compiler exits with code 2 in this environment. -/
def envCompileFails : Env := { baseEnv with runProcess := fun _ => ⟨2, ⟨51⟩⟩ }

/-- Witness for C5 at a concrete input. -/
theorem compiler_failure_yields_failed_witness :
    (compile_java_source envCompileFails sampleBash sampleJdk sampleZip
        sampleRequest).entry =
      { description := sampleRequest.component.strForm
        result := .FAILED
        output := none
        exit_code := (compile_result envCompileFails sampleBash sampleJdk
          sampleRequest).exit_code } ∧
    (compile_java_source envCompileFails sampleBash sampleJdk sampleZip
      sampleRequest).jarInvoked = false ∧
    (compile_java_source envCompileFails sampleBash sampleJdk sampleZip
      sampleRequest).jarProcess = none :=
  compiler_failure_yields_failed envCompileFails sampleBash sampleJdk sampleZip
    sampleRequest (by decide) (by decide) (by decide)

/-- C7: whenever the compiler runs, its argv is the toolchain invocation
prefix and compiler entry point, then the classpath argument (omitted
entirely, flag and value, when the assembled classpath string is empty), then
the explicit output directory argument, then the member source files in
sorted order (a sorted permutation of all members' files). -/
theorem compile_process_argv_shape (env : Env) (bash : BashBinary)
    (jdk_setup : JdkSetup) (zip_binary : ZipBinary) (request : CompileJavaSourceRequest)
    (hdeps : (direct_dependency_classfiles env request).length =
      (direct_dependency_classfiles_fallible env request).length)
    (hsrc : component_members_and_java_source_files env request ≠ []) :
    ∃ cp_part src_args,
      (compile_java_source env bash jdk_setup zip_binary request).compileProcess =
        some (compile_process env bash jdk_setup request) ∧
      (compile_process env bash jdk_setup request).argv =
        jdk_setup.args bash [jdk_setup.java_home ++ "/lib/tools.jar"] ++
          ["com.sun.tools.javac.Main"] ++ cp_part ++ ["-d", dest_dir] ++ src_args ∧
      (classpath_arg env request = "" → cp_part = []) ∧
      (classpath_arg env request ≠ "" → cp_part = ["-cp", classpath_arg env request]) ∧
      List.Sorted (· ≤ ·) src_args ∧
      List.Perm src_args ((component_members_and_java_source_files env request).flatMap
        (fun ts => ts.2.snapshot.files)) := by
  refine ⟨if classpath_arg env request ≠ "" then ["-cp", classpath_arg env request] else [],
    ((component_members_and_java_source_files env request).flatMap
      (fun ts => ts.2.snapshot.files)).mergeSort (fun a b => a ≤ b), ?_, rfl, ?_, ?_, ?_, ?_⟩
  · unfold compile_java_source
    rw [if_neg (fun h => h hdeps), if_neg hsrc]
    split
    · rfl
    split <;> rfl
  · intro he
    rw [if_neg (fun hne => hne he)]
  · intro hne
    rw [if_pos hne]
  · exact List.sorted_mergeSort' _
  · exact List.mergeSort_perm _ _

/-- Witness for C7 at a concrete input. -/
theorem compile_process_argv_shape_witness :
    ∃ cp_part src_args,
      (compile_java_source baseEnv sampleBash sampleJdk sampleZip
          sampleRequest).compileProcess =
        some (compile_process baseEnv sampleBash sampleJdk sampleRequest) ∧
      (compile_process baseEnv sampleBash sampleJdk sampleRequest).argv =
        sampleJdk.args sampleBash [sampleJdk.java_home ++ "/lib/tools.jar"] ++
          ["com.sun.tools.javac.Main"] ++ cp_part ++ ["-d", dest_dir] ++ src_args ∧
      (classpath_arg baseEnv sampleRequest = "" → cp_part = []) ∧
      (classpath_arg baseEnv sampleRequest ≠ "" →
        cp_part = ["-cp", classpath_arg baseEnv sampleRequest]) ∧
      List.Sorted (· ≤ ·) src_args ∧
      List.Perm src_args
        ((component_members_and_java_source_files baseEnv sampleRequest).flatMap
          (fun ts => ts.2.snapshot.files)) :=
  compile_process_argv_shape baseEnv sampleBash sampleJdk sampleZip sampleRequest
    (by decide) (by decide)

/-- C8: when compilation reaches classpath assembly, the third-party
coordinate list is exactly the coordinates of the artifact members
(`JvmArtifactFieldSet` applicable) in the closure of the component's
dependencies, and the lockfile materialized is the resolve key's lockfile
filtered down to exactly those coordinates. -/
theorem thirdparty_coordinates_from_dependency_closure (env : Env) (bash : BashBinary)
    (jdk_setup : JdkSetup) (zip_binary : ZipBinary) (request : CompileJavaSourceRequest)
    (hdeps : (direct_dependency_classfiles env request).length =
      (direct_dependency_classfiles_fallible env request).length)
    (hsrc : component_members_and_java_source_files env request ≠ []) :
    (compile_java_source env bash jdk_setup zip_binary request).filterCoords =
      some (filter_coords request) ∧
    (∀ co : Coordinate, co ∈ filter_coords request ↔
      ∃ item ∈ closureList request.component.dependencies,
        ∃ dep ∈ item.members, dep.isJvmArtifact = true ∧ dep.coordinate = co) ∧
    (compile_java_source env bash jdk_setup zip_binary request).materializedLockfile =
      some (env.filterDependencies (filter_coords request)
        (env.unfilteredLockfile request.resolve)) := by
  refine ⟨?_, ?_, ?_⟩
  · unfold compile_java_source
    rw [if_neg (fun h => h hdeps), if_neg hsrc]
    split
    · rfl
    split <;> rfl
  · intro co
    simp only [filter_coords, List.mem_map, List.mem_flatMap, List.mem_filter]
    constructor
    · rintro ⟨dep, ⟨item, hitem, hdep, hart⟩, hco⟩
      exact ⟨item, hitem, dep, hdep, hart, hco⟩
    · rintro ⟨item, hitem, dep, hdep, hart, hco⟩
      exact ⟨dep, ⟨item, hitem, hdep, hart⟩, hco⟩
  · unfold compile_java_source
    rw [if_neg (fun h => h hdeps), if_neg hsrc]
    split
    · rfl
    split <;> rfl

/-- Witness for C8 at a concrete input. -/
theorem thirdparty_coordinates_from_dependency_closure_witness :
    (compile_java_source baseEnv sampleBash sampleJdk sampleZip
        sampleRequest).filterCoords = some (filter_coords sampleRequest) ∧
    (∀ co : Coordinate, co ∈ filter_coords sampleRequest ↔
      ∃ item ∈ closureList sampleRequest.component.dependencies,
        ∃ dep ∈ item.members, dep.isJvmArtifact = true ∧ dep.coordinate = co) ∧
    (compile_java_source baseEnv sampleBash sampleJdk sampleZip
        sampleRequest).materializedLockfile =
      some (baseEnv.filterDependencies (filter_coords sampleRequest)
        (baseEnv.unfilteredLockfile sampleRequest.resolve)) :=
  thirdparty_coordinates_from_dependency_closure baseEnv sampleBash sampleJdk sampleZip
    sampleRequest (by decide) (by decide)

/-- Once a request is cached, any further run of identical requests returns
the memoized entry every time and leaves the engine state unchanged. -/
theorem engineRun_replicate_cached
    (compute : CompileJavaSourceRequest → FallibleClasspathEntry × Bool)
    (s : EngineState) (r : CompileJavaSourceRequest) (e : FallibleClasspathEntry)
    (h : s.cache.lookup r = some e) (n : Nat) :
    engineRun compute s (List.replicate n r) = (List.replicate n e, s) := by
  induction n with
  | zero => simp [engineRun]
  | succ n ih => simp [List.replicate_succ, engineRun, engineStep, h, ih]

/-- C6: for a fixed (component, resolve key) request whose rule body invokes
the compiler, issuing the request N ≥ 1 times against the memoizing engine
performs exactly one compiler invocation, and every requester receives the
same memoized entry. -/
theorem identical_requests_compiled_once (env : Env) (bash : BashBinary)
    (jdk_setup : JdkSetup) (zip_binary : ZipBinary) (r : CompileJavaSourceRequest)
    (n : Nat)
    (hinv : (compile_java_source env bash jdk_setup zip_binary r).compilerInvoked = true) :
    (engineRun
        (fun rq => ((compile_java_source env bash jdk_setup zip_binary rq).entry,
          (compile_java_source env bash jdk_setup zip_binary rq).compilerInvoked))
        ⟨[], 0⟩ (List.replicate (n + 1) r)).1 =
      List.replicate (n + 1) (compile_java_source env bash jdk_setup zip_binary r).entry ∧
    (engineRun
        (fun rq => ((compile_java_source env bash jdk_setup zip_binary rq).entry,
          (compile_java_source env bash jdk_setup zip_binary rq).compilerInvoked))
        ⟨[], 0⟩ (List.replicate (n + 1) r)).2.compilerInvocations = 1 := by
  set compute := fun rq =>
    ((compile_java_source env bash jdk_setup zip_binary rq).entry,
      (compile_java_source env bash jdk_setup zip_binary rq).compilerInvoked)
    with hcompute
  have hc2 : (compute r).2 = true := hinv
  have hstep : engineStep compute ⟨[], 0⟩ r =
      ((compute r).1, ⟨[(r, (compute r).1)], 1⟩) := by
    simp [engineStep, List.lookup, hc2, hinv]
  have hlookup :
      (EngineState.mk [(r, (compute r).1)] 1).cache.lookup r = some (compute r).1 := by
    simp [List.lookup]
  have hrest := engineRun_replicate_cached compute ⟨[(r, (compute r).1)], 1⟩ r
    ((compute r).1) hlookup n
  have hcomp1 : (compute r).1 = (compile_java_source env bash jdk_setup zip_binary r).entry :=
    rfl
  constructor
  · simp [List.replicate_succ, engineRun, hstep, hrest, hcomp1]
  · simp [List.replicate_succ, engineRun, hstep, hrest]

/-- Witness for C6 at a concrete input: the sample request, issued twice. -/
theorem identical_requests_compiled_once_witness :
    (engineRun
        (fun rq => ((compile_java_source baseEnv sampleBash sampleJdk sampleZip rq).entry,
          (compile_java_source baseEnv sampleBash sampleJdk sampleZip rq).compilerInvoked))
        ⟨[], 0⟩ (List.replicate 2 sampleRequest)).1 =
      List.replicate 2
        (compile_java_source baseEnv sampleBash sampleJdk sampleZip sampleRequest).entry ∧
    (engineRun
        (fun rq => ((compile_java_source baseEnv sampleBash sampleJdk sampleZip rq).entry,
          (compile_java_source baseEnv sampleBash sampleJdk sampleZip rq).compilerInvoked))
        ⟨[], 0⟩ (List.replicate 2 sampleRequest)).2.compilerInvocations = 1 :=
  identical_requests_compiled_once baseEnv sampleBash sampleJdk sampleZip sampleRequest 1
    (by decide)

end Javac
